import Mathlib

/-!
Verification of the SVG-to-ICO conversion script (`svg_to_ico.py`).

The script `convert_svg_to_ico(svg_path, ico_path)` performs, inside a
try/except/finally:
  1. `svg2png(url=svg_path, write_to="temp_icon.png", output_width=1024,
     output_height=1024)` — rasterize the vector source once at 1024x1024,
     writing the bitmap to the fixed temp path `temp_icon.png`;
  2. `Image.open(temp_png)` then `img.save(ico_path, format="ICO",
     sizes=[(16,16),(24,24),(32,32),(48,48),(64,64),(128,128),(256,256),
     (512,512)])` — decode the temp bitmap and write the icon container
     directly (in place) to `ico_path`;
  3. on any exception: print the error and return `False`; on success print
     and return `True`;
  4. `finally`: if `temp_icon.png` exists, delete it.

The embedding models the filesystem as a map from path strings to optional
byte lists, the external collaborators (the cairosvg rasterizer and the PIL
image codec) as an abstract `Env` of pure functions, and injected failures
in the stages after rasterization as a `Fault` parameter.  The in-place
(non-atomic) nature of `img.save(ico_path, ...)` is modelled by the
`saveFault k` case writing a length-`k` prefix of the encoded container
before raising.
-/

namespace SvgToIco

/-- File contents are byte lists. -/
abbrev FileContent := List Nat

/-- A filesystem maps a path to the contents of the file there, if any. -/
abbrev FS := String → Option FileContent

/-- Point update of a filesystem. -/
def update (fs : FS) (p : String) (v : Option FileContent) : FS :=
  fun q => if q = p then v else fs q

/-- The fixed temporary path the script uses: `temp_png = "temp_icon.png"`. -/
def tempPng : String := "temp_icon.png"

/-- The hardcoded `sizes=` list passed to `img.save`. -/
def hardSizes : List (Nat × Nat) :=
  [(16, 16), (24, 24), (32, 32), (48, 48), (64, 64), (128, 128), (256, 256), (512, 512)]

/-- The external collaborators, as pure functions (the spec specifies them
only by contract): `parses` says whether the rasterizer can parse given
vector content; `render c w h` is the PNG bitmap cairosvg writes for source
content `c` at `w`x`h`; `decode` is `Image.open`'s decoding of those bytes;
`encode img sizes` is the byte content of the icon container PIL writes for
in-memory image `img` and the requested size list; `entries` decodes a
container's directory back to the (width, height) list of its entries. -/
structure Env where
  parses : FileContent → Bool
  render : FileContent → Nat → Nat → FileContent
  decode : FileContent → FileContent
  encode : FileContent → List (Nat × Nat) → FileContent
  entries : FileContent → List (Nat × Nat)

/-- Injected failures in the stages after rasterization: none, a failure in
`Image.open` (after the temp bitmap exists, before the final write starts),
or a failure during `img.save` after `k` bytes of the container were
written in place to the destination. -/
inductive Fault
  | noFault
  | openFault
  | saveFault (k : Nat)
deriving DecidableEq, Repr

/-- The spec's error taxonomy for the stage whose exception was caught. -/
inductive Err
  | rasterizationError
  | openError
  | saveError
deriving DecidableEq, Repr

/-- Observable collaborator invocations; the script's only rasterizer call
is recorded with its requested output dimensions. -/
inductive Event
  | rasterize (w h : Nat)
deriving DecidableEq, Repr

/-- The `finally` block: `if os.path.exists(temp_png): os.remove(temp_png)`.
As a map on filesystems this is exactly "the temp path holds nothing". -/
def cleanup (fs : FS) : FS :=
  fun p => if p = tempPng then Option.none else fs p

/-- The try-block body: either completes (no error) or raises the tagged
error of the failing stage; in both cases it yields the filesystem as left
at that point.  Mirrors lines 10-29 of `svg_to_ico.py`: rasterize to
`tempPng` at 1024x1024, decode, save to `icoPath` with `hardSizes`. -/
def tryBody (env : Env) (fault : Fault) (fs : FS) (svgPath icoPath : String) :
    Option Err × FS :=
  match fs svgPath with
  | Option.none => (some Err.rasterizationError, fs)
  | some c =>
    if env.parses c then
      let png := env.render c 1024 1024
      let fs1 := update fs tempPng (some png)
      match fault with
      | Fault.openFault => (some Err.openError, fs1)
      | Fault.saveFault k =>
          let bytes := env.encode (env.decode png) hardSizes
          (some Err.saveError, update fs1 icoPath (some (List.take k bytes)))
      | Fault.noFault =>
          let bytes := env.encode (env.decode png) hardSizes
          (Option.none, update fs1 icoPath (some bytes))
    else (some Err.rasterizationError, fs)

/-- The observable outcome of one invocation: the boolean the caller
receives, the final filesystem, the error printed by the except-branch (if
any), and the rasterizer invocations made. -/
structure Result where
  ok : Bool
  fs : FS
  printed : Option Err
  trace : List Event

/-- `convert_svg_to_ico(svg_path, ico_path)`: run the try-block, catch any
exception (returning `False` and printing the error), return `True` on
success, and run the `finally` cleanup on every path. -/
def convert_svg_to_ico (env : Env) (fault : Fault) (fs : FS)
    (svgPath icoPath : String) : Result :=
  let r := tryBody env fault fs svgPath icoPath
  { ok := r.1.isNone
    fs := cleanup r.2
    printed := r.1
    trace := [Event.rasterize 1024 1024] }

/-- The spec's contract for the external codec (section 6): the container
written for a size list has exactly one entry per unique requested size, in
other words its decoded entry list is the deduplicated request. -/
def CodecSpec (env : Env) : Prop :=
  ∀ img sizes, env.entries (env.encode img sizes) = List.dedup sizes

/-- Flatten a (width, height) list to bytes; used by the sample codec. -/
def pairFlat : List (Nat × Nat) → List Nat
  | [] => []
  | (w, h) :: r => w :: h :: pairFlat r

/-- Read a byte list back as consecutive (width, height) pairs. -/
def pairSplit : List Nat → List (Nat × Nat)
  | w :: h :: r => (w, h) :: pairSplit r
  | _ => []

theorem pairSplit_pairFlat (l : List (Nat × Nat)) : pairSplit (pairFlat l) = l := by
  induction l with
  | nil => rfl
  | cons p r ih => cases p; simp [pairFlat, pairSplit, ih]

/-- A concrete, deterministic collaborator instance used for witnesses. -/
def sampleEnv : Env :=
  { parses := fun _ => true
    render := fun c _ _ => 0 :: c
    decode := fun b => b
    encode := fun _ sizes => pairFlat (List.dedup sizes)
    entries := pairSplit }

theorem sampleEnv_codec : CodecSpec sampleEnv := by
  intro img sizes
  exact pairSplit_pairFlat _

/-- The empty filesystem. -/
def emptyFS : FS := fun _ => Option.none

/-- A filesystem holding one SVG source at `logo.svg`. -/
def witnessFS : FS := update emptyFS "logo.svg" (some [0])

/-- A filesystem holding the source and a pre-existing destination file. -/
def priorFS : FS :=
  fun p =>
    if p = "logo.svg" then some [0]
    else if p = "logo.ico" then some [7]
    else Option.none

/-- A filesystem with a stale pre-existing temp file and no source. -/
def staleTempFS : FS := fun p => if p = tempPng then some [5] else Option.none

/-- C3: after every invocation of convert_svg_to_ico, whether it succeeds
or fails at any stage, the temp PNG does not remain on disk. -/
theorem temp_cleanup_invariant (env : Env) (fault : Fault) (fs : FS)
    (svgPath icoPath : String) :
    (convert_svg_to_ico env fault fs svgPath icoPath).fs tempPng = Option.none := by
  simp [convert_svg_to_ico, cleanup]

/-- C1: under the spec's codec contract, for every (w,h) in the requested
size list — which is the hardcoded list including (512,512) — the container
written by convert_svg_to_ico to the destination contains exactly one entry
whose decoded dimensions are (w,h). -/
theorem size_fidelity (env : Env) (fs : FS) (svgPath icoPath : String) (c : FileContent)
    (hcodec : CodecSpec env) (hsrc : fs svgPath = some c)
    (hparse : env.parses c = true) (hdest : icoPath ≠ tempPng) :
    (512, 512) ∈ hardSizes ∧
    ∀ wh ∈ hardSizes,
      List.count wh
        (env.entries
          (((convert_svg_to_ico env Fault.noFault fs svgPath icoPath).fs icoPath).getD [])) = 1 := by
  have hfs : (convert_svg_to_ico env Fault.noFault fs svgPath icoPath).fs icoPath
      = some (env.encode (env.decode (env.render c 1024 1024)) hardSizes) := by
    simp [convert_svg_to_ico, tryBody, hsrc, hparse, cleanup, update, hdest]
  rw [hfs]
  simp only [Option.getD_some]
  rw [hcodec]
  decide

/-- C1 witness: the size-fidelity theorem applied to the sample collaborators
and a concrete one-file filesystem. -/
theorem size_fidelity_witness :
    (CodecSpec sampleEnv ∧ witnessFS "logo.svg" = some [0] ∧
      sampleEnv.parses [0] = true ∧ "logo.ico" ≠ tempPng) ∧
    ((512, 512) ∈ hardSizes ∧
      ∀ wh ∈ hardSizes,
        List.count wh
          (sampleEnv.entries
            (((convert_svg_to_ico sampleEnv Fault.noFault witnessFS "logo.svg" "logo.ico").fs
                "logo.ico").getD [])) = 1) :=
  ⟨⟨sampleEnv_codec, by decide, rfl, by decide⟩,
    size_fidelity sampleEnv witnessFS "logo.svg" "logo.ico" [0]
      sampleEnv_codec (by decide) rfl (by decide)⟩

/-- C2 counterexample: with a failure injected during the in-place
`img.save` after 1 byte was written (temp bitmap already produced, final
write not complete), the destination is neither absent nor unchanged from
its prior state: a partial file remains. -/
theorem write_atomicity_cex :
    (convert_svg_to_ico sampleEnv (Fault.saveFault 1) priorFS "logo.svg" "logo.ico").ok = false ∧
    ¬ ((convert_svg_to_ico sampleEnv (Fault.saveFault 1) priorFS "logo.svg" "logo.ico").fs
          "logo.ico" = Option.none ∨
        (convert_svg_to_ico sampleEnv (Fault.saveFault 1) priorFS "logo.svg" "logo.ico").fs
          "logo.ico" = priorFS "logo.ico") := by
  decide

/-- C2 amended: a failure after the temp bitmap is produced but before the
final write begins leaves the destination unchanged; a failure during the
in-place final write leaves the length-k written part of the container
at the destination (the write is not atomic). -/
theorem write_atomicity_amended (env : Env) (fs : FS) (svgPath icoPath : String)
    (c : FileContent) (hsrc : fs svgPath = some c) (hparse : env.parses c = true)
    (hdest : icoPath ≠ tempPng) :
    (convert_svg_to_ico env Fault.openFault fs svgPath icoPath).fs icoPath = fs icoPath ∧
    ∀ k, (convert_svg_to_ico env (Fault.saveFault k) fs svgPath icoPath).fs icoPath
      = some (List.take k (env.encode (env.decode (env.render c 1024 1024)) hardSizes)) := by
  constructor
  · simp [convert_svg_to_ico, tryBody, hsrc, hparse, cleanup, update, hdest]
  · intro k
    simp [convert_svg_to_ico, tryBody, hsrc, hparse, cleanup, update, hdest]

/-- C2 amended witness: the amended atomicity theorem at a concrete
filesystem with a pre-existing destination. -/
theorem write_atomicity_amended_witness :
    (priorFS "logo.svg" = some [0] ∧ sampleEnv.parses [0] = true ∧
      "logo.ico" ≠ tempPng) ∧
    ((convert_svg_to_ico sampleEnv Fault.openFault priorFS "logo.svg" "logo.ico").fs
        "logo.ico" = priorFS "logo.ico" ∧
      ∀ k, (convert_svg_to_ico sampleEnv (Fault.saveFault k) priorFS "logo.svg" "logo.ico").fs
          "logo.ico"
        = some (List.take k (sampleEnv.encode (sampleEnv.decode (sampleEnv.render [0] 1024 1024))
            hardSizes))) :=
  ⟨⟨by decide, rfl, by decide⟩,
    write_atomicity_amended sampleEnv priorFS "logo.svg" "logo.ico" [0]
      (by decide) rfl (by decide)⟩

/-- C4: with a non-existent source path, the invocation fails (returns
False), the caught-and-reported error is the rasterization-stage error, and
the destination path is untouched (no destination file is created). -/
theorem missing_source_error (env : Env) (fault : Fault) (fs : FS)
    (svgPath icoPath : String) (hsrc : fs svgPath = Option.none) (hdest : icoPath ≠ tempPng) :
    (convert_svg_to_ico env fault fs svgPath icoPath).ok = false ∧
    (convert_svg_to_ico env fault fs svgPath icoPath).printed = some Err.rasterizationError ∧
    (convert_svg_to_ico env fault fs svgPath icoPath).fs icoPath = fs icoPath := by
  refine ⟨?_, ?_, ?_⟩ <;>
    simp [convert_svg_to_ico, tryBody, hsrc, cleanup, hdest]

/-- C4 witness: the missing-source theorem on the empty filesystem; the
destination stays absent. -/
theorem missing_source_error_witness :
    (emptyFS "missing.svg" = Option.none ∧ "out.ico" ≠ tempPng) ∧
    ((convert_svg_to_ico sampleEnv Fault.noFault emptyFS "missing.svg" "out.ico").ok = false ∧
      (convert_svg_to_ico sampleEnv Fault.noFault emptyFS "missing.svg" "out.ico").printed
        = some Err.rasterizationError ∧
      (convert_svg_to_ico sampleEnv Fault.noFault emptyFS "missing.svg" "out.ico").fs "out.ico"
        = emptyFS "out.ico") :=
  ⟨⟨rfl, by decide⟩,
    missing_source_error sampleEnv Fault.noFault emptyFS "missing.svg" "out.ico" rfl (by decide)⟩

/-- C5 counterexample: two invocations failing at different stages (missing
source versus a failure while opening the temp bitmap) print different
errors but return the identical value False: the caller-visible result
carries no stage tag and no cause. -/
theorem caller_tag_cex :
    (convert_svg_to_ico sampleEnv Fault.noFault emptyFS "logo.svg" "logo.ico").printed
        ≠ (convert_svg_to_ico sampleEnv Fault.openFault priorFS "logo.svg" "logo.ico").printed ∧
    (convert_svg_to_ico sampleEnv Fault.noFault emptyFS "logo.svg" "logo.ico").ok
        = (convert_svg_to_ico sampleEnv Fault.openFault priorFS "logo.svg" "logo.ico").ok ∧
    (convert_svg_to_ico sampleEnv Fault.noFault emptyFS "logo.svg" "logo.ico").ok = false := by
  decide

/-- C5 amended: on every outcome the caller receives a plain boolean — True
with nothing printed on success, or False with the stage error printed on
failure; every caught error is reported via the printed message, none is
dropped, but stage and cause are not returned to the caller. -/
theorem boolean_outcome (env : Env) (fault : Fault) (fs : FS) (svgPath icoPath : String) :
    ((convert_svg_to_ico env fault fs svgPath icoPath).ok = true ∧
      (convert_svg_to_ico env fault fs svgPath icoPath).printed = Option.none) ∨
    ((convert_svg_to_ico env fault fs svgPath icoPath).ok = false ∧
      ∃ e, (convert_svg_to_ico env fault fs svgPath icoPath).printed = some e) := by
  cases h : (tryBody env fault fs svgPath icoPath).1 with
  | none => exact Or.inl ⟨by simp [convert_svg_to_ico, h], by simp [convert_svg_to_ico, h]⟩
  | some e =>
      exact Or.inr ⟨by simp [convert_svg_to_ico, h], e, by simp [convert_svg_to_ico, h]⟩

/-- C6: determinism — the outcome and the bytes written to the destination
depend only on the source file's content (the collaborators being pure
functions of their inputs): two filesystems agreeing on the source path
give the same result, and on success byte-identical destination contents. -/
theorem determinism_source_only (env : Env) (fsa fsb : FS) (svgPath icoPath : String)
    (h : fsa svgPath = fsb svgPath) :
    (convert_svg_to_ico env Fault.noFault fsa svgPath icoPath).ok
      = (convert_svg_to_ico env Fault.noFault fsb svgPath icoPath).ok ∧
    ((convert_svg_to_ico env Fault.noFault fsa svgPath icoPath).ok = true →
      (convert_svg_to_ico env Fault.noFault fsa svgPath icoPath).fs icoPath
        = (convert_svg_to_ico env Fault.noFault fsb svgPath icoPath).fs icoPath) := by
  cases hc : fsa svgPath with
  | none =>
      have h2 : fsb svgPath = Option.none := by rw [← h, hc]
      constructor
      · simp [convert_svg_to_ico, tryBody, hc, h2]
      · intro hok
        exfalso
        simp [convert_svg_to_ico, tryBody, hc] at hok
  | some c =>
      have h2 : fsb svgPath = some c := by rw [← h, hc]
      cases hp : env.parses c with
      | false =>
          constructor
          · simp [convert_svg_to_ico, tryBody, hc, h2, hp]
          · intro hok
            exfalso
            simp [convert_svg_to_ico, tryBody, hc, hp] at hok
      | true =>
          constructor
          · simp [convert_svg_to_ico, tryBody, hc, h2, hp]
          · intro _
            by_cases hio : icoPath = tempPng
            · simp [convert_svg_to_ico, cleanup, hio]
            · simp [convert_svg_to_ico, tryBody, hc, h2, hp, cleanup, update, hio]

/-- C6 witness: the determinism theorem on two concrete filesystems with
equal source content but different other files. -/
theorem determinism_source_only_witness :
    witnessFS "logo.svg" = priorFS "logo.svg" ∧
    ((convert_svg_to_ico sampleEnv Fault.noFault witnessFS "logo.svg" "logo.ico").ok
        = (convert_svg_to_ico sampleEnv Fault.noFault priorFS "logo.svg" "logo.ico").ok ∧
      ((convert_svg_to_ico sampleEnv Fault.noFault witnessFS "logo.svg" "logo.ico").ok = true →
        (convert_svg_to_ico sampleEnv Fault.noFault witnessFS "logo.svg" "logo.ico").fs "logo.ico"
          = (convert_svg_to_ico sampleEnv Fault.noFault priorFS "logo.svg" "logo.ico").fs
              "logo.ico")) :=
  ⟨by decide,
    determinism_source_only sampleEnv witnessFS priorFS "logo.svg" "logo.ico" (by decide)⟩

/-- C8: for every pair of input paths and every stage failure, the function
returns a boolean rather than propagating the raised exception: it returns
True exactly when the source exists, parses, and no later stage fault was
injected, and False in every failing case. -/
theorem success_characterization (env : Env) (fault : Fault) (fs : FS)
    (svgPath icoPath : String) :
    (convert_svg_to_ico env fault fs svgPath icoPath).ok = true ↔
      ((∃ c, fs svgPath = some c ∧ env.parses c = true) ∧ fault = Fault.noFault) := by
  cases hc : fs svgPath with
  | none => simp [convert_svg_to_ico, tryBody, hc]
  | some c =>
      cases hp : env.parses c with
      | false => simp [convert_svg_to_ico, tryBody, hc, hp]
      | true =>
          cases fault with
          | noFault => simp [convert_svg_to_ico, tryBody, hc, hp]
          | openFault => simp [convert_svg_to_ico, tryBody, hc, hp]
          | saveFault k => simp [convert_svg_to_ico, tryBody, hc, hp]

/-- C8 witness: one concrete success through the characterization. -/
theorem success_characterization_witness :
    (convert_svg_to_ico sampleEnv Fault.noFault witnessFS "logo.svg" "logo.ico").ok = true :=
  (success_characterization sampleEnv Fault.noFault witnessFS "logo.svg" "logo.ico").mpr
    ⟨⟨[0], by decide, rfl⟩, rfl⟩

/-- C9: every invocation calls the rasterizer exactly once, at 1024x1024,
whatever the filesystem and paths; and on a fault-free run the destination
container is computed from that single base bitmap (decode of the rendered
1024x1024 image, encoded at the hardcoded sizes). -/
theorem render_once_at_1024 (env : Env) (fault : Fault) (fs : FS)
    (svgPath icoPath : String) :
    (convert_svg_to_ico env fault fs svgPath icoPath).trace = [Event.rasterize 1024 1024] ∧
    (∀ c, fs svgPath = some c → env.parses c = true → icoPath ≠ tempPng →
      (convert_svg_to_ico env Fault.noFault fs svgPath icoPath).fs icoPath
        = some (env.encode (env.decode (env.render c 1024 1024)) hardSizes)) := by
  constructor
  · rfl
  · intro c hsrc hp hio
    simp [convert_svg_to_ico, tryBody, hsrc, hp, cleanup, update, hio]

/-- C9 witness: the render-once theorem at a concrete run. -/
theorem render_once_at_1024_witness :
    (convert_svg_to_ico sampleEnv Fault.noFault witnessFS "logo.svg" "logo.ico").trace
        = [Event.rasterize 1024 1024] ∧
    (convert_svg_to_ico sampleEnv Fault.noFault witnessFS "logo.svg" "logo.ico").fs "logo.ico"
        = some (sampleEnv.encode (sampleEnv.decode (sampleEnv.render [0] 1024 1024)) hardSizes) :=
  ⟨(render_once_at_1024 sampleEnv Fault.noFault witnessFS "logo.svg" "logo.ico").1,
    (render_once_at_1024 sampleEnv Fault.noFault witnessFS "logo.svg" "logo.ico").2
      [0] (by decide) rfl (by decide)⟩

/-- C10: the cleanup deletes whatever is at `temp_icon.png` on every exit —
including a pre-existing file when rasterization fails before writing the
temp — and no path other than the temp path and the destination path is
modified. -/
theorem cleanup_frame (env : Env) (fault : Fault) (fs : FS) (svgPath icoPath : String) :
    (convert_svg_to_ico env fault fs svgPath icoPath).fs tempPng = Option.none ∧
    (∀ p, p ≠ tempPng → p ≠ icoPath →
      (convert_svg_to_ico env fault fs svgPath icoPath).fs p = fs p) := by
  constructor
  · simp [convert_svg_to_ico, cleanup]
  · intro p hpt hpi
    cases hc : fs svgPath with
    | none => simp [convert_svg_to_ico, tryBody, hc, cleanup, hpt]
    | some c =>
        cases hp : env.parses c with
        | false => simp [convert_svg_to_ico, tryBody, hc, hp, cleanup, hpt]
        | true =>
            cases fault with
            | noFault => simp [convert_svg_to_ico, tryBody, hc, hp, cleanup, update, hpt, hpi]
            | openFault => simp [convert_svg_to_ico, tryBody, hc, hp, cleanup, update, hpt, hpi]
            | saveFault k =>
                simp [convert_svg_to_ico, tryBody, hc, hp, cleanup, update, hpt, hpi]

/-- C10 witness: a run whose source is missing but whose filesystem holds a
stale pre-existing `temp_icon.png`: the stale file is deleted, and an
unrelated path is untouched. -/
theorem cleanup_frame_witness :
    (convert_svg_to_ico sampleEnv Fault.noFault staleTempFS "logo.svg" "logo.ico").fs tempPng
        = Option.none ∧
    ("other.txt" ≠ tempPng ∧ "other.txt" ≠ "logo.ico" ∧
      (convert_svg_to_ico sampleEnv Fault.noFault staleTempFS "logo.svg" "logo.ico").fs
          "other.txt" = staleTempFS "other.txt") :=
  ⟨(cleanup_frame sampleEnv Fault.noFault staleTempFS "logo.svg" "logo.ico").1,
    by decide, by decide,
    (cleanup_frame sampleEnv Fault.noFault staleTempFS "logo.svg" "logo.ico").2
      "other.txt" (by decide) (by decide)⟩

end SvgToIco
